import Mathlib

/-!
Shallow embedding of the amortization engine of
`src/loan/property_loan/property_loan.py` and of the income-tax overlay of
`src/loan/property_loan/income_adjusted_property_loan.py`, together with
theorems checking the design document against this code.

Modelling conventions:
* Python floats are modelled as exact rationals (`ℚ`).
* `mortgage_years` is a Python float in the source; every scenario in the
  design document uses a whole number of years, so the embedding carries it
  as an integer and `(1 + rate) ** years` becomes `zpow`.
* A Python expression that can raise `ZeroDivisionError` is modelled as an
  `Option`; `none` is the raised exception propagating out.
* `datetime.date` advanced by `relativedelta(months=1)` is modelled as a
  month index `n : ℕ`; the calendar year of such a date is `n / 12`, and the
  wall-clock call `datetime.date.today()` becomes an explicit `today : ℕ`
  input of `initial_loan_status`.
* The generator `__iter__` is modelled as a fuel-bounded loop; the result is
  `none` when the loop has not finished within the given fuel (so a run that
  is `none` for every fuel amount is a non-terminating generator).
-/

/-- `LoanStatus` from `src/loan/loan_status.py`. -/
structure LoanStatus where
  date : ℕ
  balance : ℚ
  interest : ℚ
  principal : ℚ
  taxes : ℚ
  deriving DecidableEq

/-- The dataclass fields of `PropertyLoan`. -/
structure PropertyLoan where
  purchase_price : ℚ
  down_payment_percentage : ℚ
  interest_rate_percentage : ℚ
  mortgage_years : ℤ
  property_taxes_yearly_usd : ℚ
  home_appreciation_percentage : ℚ
  include_appreciation_as_reduction : Bool := true
  payment_interval_months : ℕ := 1
  deriving DecidableEq

namespace PropertyLoan

def MONTHS_PER_YEAR : ℚ := 12

def loan_amount_usd (p : PropertyLoan) : ℚ :=
  p.purchase_price * (1 - p.down_payment_percentage)

/-- `mortgage_per_year_usd`: `none` models the `ZeroDivisionError` raised by
the final `result /= denomenator` when `denomenator == 0`. -/
def mortgage_per_year_usd (p : PropertyLoan) : Option ℚ :=
  let numerator : ℚ := (1 + p.interest_rate_percentage) ^ p.mortgage_years
  let denomenator : ℚ := numerator - 1
  if denomenator = 0 then none
  else some (p.loan_amount_usd * p.interest_rate_percentage * numerator / denomenator)

def mortgage_per_month_usd (p : PropertyLoan) : Option ℚ :=
  p.mortgage_per_year_usd.map (fun y => y / MONTHS_PER_YEAR)

def calculate_monthly_interest (p : PropertyLoan) (balance_usd : ℚ) : ℚ :=
  balance_usd * p.interest_rate_percentage / MONTHS_PER_YEAR

/-- `(self.mortgage_per_month_usd - interest_usd) * (balance_usd > 0)`;
the Python boolean multiplies as `1` or `0`. -/
def calculate_monthly_principal (p : PropertyLoan)
    (interest_usd balance_usd : ℚ) : Option ℚ :=
  p.mortgage_per_month_usd.map
    (fun m => (m - interest_usd) * (if 0 < balance_usd then 1 else 0))

def calculate_next_loan_status (p : PropertyLoan)
    (loan_status : LoanStatus) : Option LoanStatus :=
  let next_months_balance := max (loan_status.balance - loan_status.principal) 0
  let next_months_interest := p.calculate_monthly_interest next_months_balance
  (p.calculate_monthly_principal next_months_interest next_months_balance).map
    (fun next_months_principal =>
      { date := loan_status.date + p.payment_interval_months
        balance := next_months_balance
        interest := next_months_interest
        principal := next_months_principal
        taxes := loan_status.taxes })

def property_taxes_monthly_usd (p : PropertyLoan) : ℚ :=
  p.property_taxes_yearly_usd / MONTHS_PER_YEAR

/-- `initial_loan_status`, with `datetime.date.today()` made the explicit
input `today`. -/
def initial_loan_status (p : PropertyLoan) (today : ℕ) : Option LoanStatus :=
  let first_months_interest := p.calculate_monthly_interest p.loan_amount_usd
  (p.calculate_monthly_principal first_months_interest p.loan_amount_usd).map
    (fun first_months_principal =>
      { date := today
        balance := p.loan_amount_usd
        interest := first_months_interest
        principal := first_months_principal
        taxes := p.property_taxes_monthly_usd })

/-- The loop body of `__iter__`: yield the current status, and while its
balance is positive, step and yield again.  `fuel` bounds the number of
steps; `none` means the generator was still running when fuel ran out. -/
def scheduleAux (p : PropertyLoan) : ℕ → LoanStatus → Option (List LoanStatus)
  | 0, s => if 0 < s.balance then none else some [s]
  | fuel + 1, s =>
    if 0 < s.balance then
      (p.calculate_next_loan_status s).bind
        (fun s2 => (scheduleAux p fuel s2).map (fun rest => s :: rest))
    else some [s]

/-- The full sequence produced by `__iter__` (also the rows of `dataframe`). -/
def monthly_schedule (p : PropertyLoan) (today : ℕ) (fuel : ℕ) :
    Option (List LoanStatus) :=
  (p.initial_loan_status today).bind (fun s => scheduleAux p fuel s)

/-- Calendar year of a month-indexed date (`df['date'].dt.year`). -/
def yearOf (s : LoanStatus) : ℕ := s.date / 12

/-- The pandas `max` aggregation over one year group (groups are never empty;
the `[]` case is arbitrary). -/
def groupMaxBalance : List LoanStatus → ℚ
  | [] => 0
  | s :: rest => rest.foldl (fun acc t => max acc t.balance) s.balance

/-- One row of `dataframe_yearly`. -/
structure YearlyRow where
  year : ℕ
  balance : ℚ
  interest : ℚ
  principal : ℚ
  taxes : ℚ
  deriving DecidableEq

/-- The group keys of `df.groupby(df['date'].dt.year)`: the distinct years,
sorted ascending, as pandas produces them. -/
def yearly_keys (l : List LoanStatus) : List ℕ :=
  ((l.map yearOf).toFinset).sort (· ≤ ·)

/-- One aggregated row, per `YEARLY_AGGREGATIONS`:
`balance → max`, `interest → sum`, `principal → sum`, `taxes → sum`. -/
def agg_row (l : List LoanStatus) (y : ℕ) : YearlyRow :=
  let group := l.filter (fun s => yearOf s == y)
  { year := y
    balance := groupMaxBalance group
    interest := (group.map (fun s => s.interest)).sum
    principal := (group.map (fun s => s.principal)).sum
    taxes := (group.map (fun s => s.taxes)).sum }

/-- `dataframe_yearly` as a function of the monthly rows it groups. -/
def dataframe_yearly (l : List LoanStatus) : List YearlyRow :=
  (yearly_keys l).map (agg_row l)

/-- The non-date fields of a status, for comparing two runs started on
different wall-clock days. -/
def payment_fields (s : LoanStatus) : ℚ × ℚ × ℚ × ℚ :=
  (s.balance, s.interest, s.principal, s.taxes)

end PropertyLoan

/-- The dataclass fields of `IncomeAdjustedPropertyLoan`. -/
structure IncomeAdjustedPropertyLoan extends PropertyLoan where
  agi_usd : ℚ
  itemized_deductions_usd : ℚ
  deriving DecidableEq

namespace IncomeAdjustedPropertyLoan

def STANDARD_DEDUCTION : ℚ := 13850

def appreciation_multiplier_at_year (p : IncomeAdjustedPropertyLoan)
    (year : ℤ) : ℚ :=
  (1 + p.home_appreciation_percentage) ^ year

def final_value (p : IncomeAdjustedPropertyLoan) : ℚ :=
  p.appreciation_multiplier_at_year p.mortgage_years * p.purchase_price

def anticipated_profit (p : IncomeAdjustedPropertyLoan) : ℚ :=
  p.final_value - p.purchase_price

/-- `anticipated_profit / (mortgage_years * 12)`.  The Python division would
raise only when `mortgage_years == 0`, and in that case the pipeline has
already raised inside `mortgage_per_year_usd` (the denominator
`(1+rate)**0 - 1` is `0`) before this expression is ever reached, so total
division is faithful here. -/
def appreciation_effective_mortgage_decrease (p : IncomeAdjustedPropertyLoan) : ℚ :=
  p.anticipated_profit / ((p.mortgage_years : ℚ) * PropertyLoan.MONTHS_PER_YEAR)

/-- One row of the tax-adjusted `dataframe_yearly`.  The appreciation column
exists only when `include_appreciation_as_reduction` is set, hence `Option`. -/
structure AdjustedYearlyRow where
  year : ℕ
  balance : ℚ
  interest : ℚ
  principal : ℚ
  taxes : ℚ
  agi : ℚ
  total_itemized_deductions : ℚ
  standard_deduction : ℚ
  maximum_deduction : ℚ
  agi_reduced : ℚ
  estimated_tax_savings : ℚ
  estimated_appreciation_effective_mortgage_decrease : Option ℚ
  total : ℚ
  deriving DecidableEq

/-- The column-wise derivations the override `dataframe_yearly` performs on
one aggregated row.  `total` sums the `PAYMENT_COLUMN_MAPPINGS` keys present
as columns: interest, principal, taxes, estimated_tax_savings, and the
appreciation column when the flag is set. -/
def adjust_row (p : IncomeAdjustedPropertyLoan) (row : PropertyLoan.YearlyRow) :
    AdjustedYearlyRow :=
  let total_itemized_deductions := row.interest + p.itemized_deductions_usd
  let maximum_deduction := max total_itemized_deductions STANDARD_DEDUCTION
  let estimated_tax_savings := -(2/5 : ℚ) * maximum_deduction
  let appreciation_col : Option ℚ :=
    if p.include_appreciation_as_reduction then
      some (-p.appreciation_effective_mortgage_decrease)
    else none
  { year := row.year
    balance := row.balance
    interest := row.interest
    principal := row.principal
    taxes := row.taxes
    agi := p.agi_usd
    total_itemized_deductions := total_itemized_deductions
    standard_deduction := STANDARD_DEDUCTION
    maximum_deduction := maximum_deduction
    agi_reduced := p.agi_usd - maximum_deduction
    estimated_tax_savings := estimated_tax_savings
    estimated_appreciation_effective_mortgage_decrease := appreciation_col
    total := row.interest + row.principal + row.taxes + estimated_tax_savings
      + appreciation_col.getD 0 }

/-- The tax-adjusted `dataframe_yearly`, as a function of the monthly rows. -/
def dataframe_yearly (p : IncomeAdjustedPropertyLoan) (l : List LoanStatus) :
    List AdjustedYearlyRow :=
  (PropertyLoan.dataframe_yearly l).map p.adjust_row

end IncomeAdjustedPropertyLoan

/-- The payment formula exactly as the specification text words it: a
level-payment annuity with monthly compounding, `rate_per_period` equal to
the annual rate over 12 and `n = 12 * years` periods.  Declared only to be
compared against the source's `mortgage_per_month_usd`. -/
def spec_monthly_level_payment (loan annual_rate : ℚ) (years : ℤ) : ℚ :=
  let rate_per_period := annual_rate / 12
  let n : ℤ := 12 * years
  loan * rate_per_period * (1 + rate_per_period) ^ n
    / ((1 + rate_per_period) ^ n - 1)

/-- The design document's worked example: loan 800,000 at 7% over 30 years
(down payment 0 so the loan is the purchase price). -/
def exampleLoan : PropertyLoan :=
  { purchase_price := 800000
    down_payment_percentage := 0
    interest_rate_percentage := 7/100
    mortgage_years := 30
    property_taxes_yearly_usd := 10000
    home_appreciation_percentage := 3/100 }

/-- Zero interest rate, the degenerate case of the payment formula. -/
def zeroRateLoan : PropertyLoan :=
  { exampleLoan with interest_rate_percentage := 0 }

/-- A parameter set whose computed payment does not cover the first month's
interest: the initial principal is negative and the balance grows. -/
def negativeYearsLoan : PropertyLoan :=
  { exampleLoan with mortgage_years := -1 }

/-- An invalid parameter set: the down-payment fraction 2 is out of range,
making the loan amount negative. -/
def invalidLoan : PropertyLoan :=
  { exampleLoan with purchase_price := 1000, down_payment_percentage := 2 }

/-- A small amortizing loan whose full schedule is cheap to evaluate. -/
def smallLoan : PropertyLoan :=
  { purchase_price := 300
    down_payment_percentage := 0
    interest_rate_percentage := 7/100
    mortgage_years := 1
    property_taxes_yearly_usd := 12
    home_appreciation_percentage := 0 }

/-- The schedule of `smallLoan` started in month 6 of year 0, so that the
run crosses a calendar-year boundary. -/
def smallSchedule : List LoanStatus :=
  (smallLoan.monthly_schedule 6 20).getD []

/-- `smallLoan` with purchase price 0: its schedule is the single initial
status, which makes runs cheap to compare. -/
def zeroPriceLoan : PropertyLoan :=
  { smallLoan with purchase_price := 0 }

/-- `smallLoan` wrapped with the tax-overlay inputs of the design document's
second worked example. -/
def smallIncomeLoan : IncomeAdjustedPropertyLoan :=
  { toPropertyLoan := smallLoan
    agi_usd := 70000
    itemized_deductions_usd := 0 }

/-- The first row of the tax-adjusted yearly table of `smallLoan` (the
default row is never reached: the table is non-empty). -/
def smallAdjustedRow : IncomeAdjustedPropertyLoan.AdjustedYearlyRow :=
  (smallIncomeLoan.dataframe_yearly smallSchedule).getD 0
    { year := 0, balance := 0, interest := 0, principal := 0, taxes := 0,
      agi := 0, total_itemized_deductions := 0, standard_deduction := 0,
      maximum_deduction := 0, agi_reduced := 0, estimated_tax_savings := 0,
      estimated_appreciation_effective_mortgage_decrease := none, total := 0 }

/-- The two recurrence identities satisfied by every status the engine
emits: interest is one month's interest on the balance, and principal is
payment minus interest, zeroed once the balance is gone. -/
def StatusForm (p : PropertyLoan) (m : ℚ) (s : LoanStatus) : Prop :=
  s.interest = p.calculate_monthly_interest s.balance ∧
  s.principal = (m - s.interest) * (if 0 < s.balance then 1 else 0)

/-- Invariant carried along a schedule run: the recurrence identities hold
and the balance stays between 0 and the loan amount. -/
def GoodStatus (p : PropertyLoan) (m : ℚ) (s : LoanStatus) : Prop :=
  StatusForm p m s ∧ 0 ≤ s.balance ∧ s.balance ≤ p.loan_amount_usd

/-- Lower bound for every principal payment of an amortizing run: the
payment minus one month's interest on the full loan amount. -/
def principal_floor (p : PropertyLoan) (m : ℚ) : ℚ :=
  m - p.loan_amount_usd * p.interest_rate_percentage / 12

lemma calculate_monthly_interest_def (p : PropertyLoan) (b : ℚ) :
    p.calculate_monthly_interest b = b * p.interest_rate_percentage / 12 := rfl

lemma calculate_monthly_principal_eq (p : PropertyLoan) {m : ℚ}
    (hm : p.mortgage_per_month_usd = some m) (i b : ℚ) :
    p.calculate_monthly_principal i b = some ((m - i) * (if 0 < b then 1 else 0)) := by
  simp [PropertyLoan.calculate_monthly_principal, hm]

lemma calculate_next_loan_status_eq (p : PropertyLoan) {m : ℚ}
    (hm : p.mortgage_per_month_usd = some m) (s : LoanStatus) :
    p.calculate_next_loan_status s =
      some { date := s.date + p.payment_interval_months
             balance := max (s.balance - s.principal) 0
             interest := p.calculate_monthly_interest (max (s.balance - s.principal) 0)
             principal := (m - p.calculate_monthly_interest (max (s.balance - s.principal) 0))
               * (if 0 < max (s.balance - s.principal) 0 then 1 else 0)
             taxes := s.taxes } := by
  simp [PropertyLoan.calculate_next_loan_status,
    calculate_monthly_principal_eq p hm]

lemma initial_loan_status_eq (p : PropertyLoan) {m : ℚ}
    (hm : p.mortgage_per_month_usd = some m) (today : ℕ) :
    p.initial_loan_status today =
      some { date := today
             balance := p.loan_amount_usd
             interest := p.calculate_monthly_interest p.loan_amount_usd
             principal := (m - p.calculate_monthly_interest p.loan_amount_usd)
               * (if 0 < p.loan_amount_usd then 1 else 0)
             taxes := p.property_taxes_monthly_usd } := by
  simp [PropertyLoan.initial_loan_status,
    calculate_monthly_principal_eq p hm]

lemma mortgage_some_of_initial_some (p : PropertyLoan) {today : ℕ} {s : LoanStatus}
    (h : p.initial_loan_status today = some s) :
    ∃ m, p.mortgage_per_month_usd = some m := by
  cases hm : p.mortgage_per_month_usd with
  | none =>
    rw [PropertyLoan.initial_loan_status, PropertyLoan.calculate_monthly_principal, hm] at h
    simp at h
  | some m => exact ⟨m, rfl⟩

/-- A status with no remaining balance ends the run at once, whatever the
remaining fuel. -/
lemma scheduleAux_halt (p : PropertyLoan) (fuel : ℕ) (s : LoanStatus)
    (h : ¬ 0 < s.balance) : PropertyLoan.scheduleAux p fuel s = some [s] := by
  cases fuel <;> simp [PropertyLoan.scheduleAux, h]

/-- C1 (amended): the payment the engine computes is the *annual* annuity
`loan * rate * (1+rate)^years / ((1+rate)^years - 1)` divided by 12 — annual
compounding, not the monthly-compounding amount of the specification text —
and it is well defined whenever rate and term are positive. -/
theorem mortgage_payment_annual_annuity (p : PropertyLoan)
    (hr : 0 < p.interest_rate_percentage) (hy : 0 < p.mortgage_years) :
    p.mortgage_per_month_usd =
      some (p.loan_amount_usd * p.interest_rate_percentage
          * (1 + p.interest_rate_percentage) ^ p.mortgage_years
          / ((1 + p.interest_rate_percentage) ^ p.mortgage_years - 1) / 12) := by
  have h1 : (1 : ℚ) < 1 + p.interest_rate_percentage := by linarith
  have h2 : (1 : ℚ) < (1 + p.interest_rate_percentage) ^ p.mortgage_years :=
    one_lt_zpow₀ h1 hy
  have hden : (1 + p.interest_rate_percentage) ^ p.mortgage_years - 1 ≠ 0 := by
    intro h0
    have : (1 + p.interest_rate_percentage) ^ p.mortgage_years = 1 := by linarith
    rw [this] at h2
    exact lt_irrefl 1 h2
  rw [PropertyLoan.mortgage_per_month_usd, PropertyLoan.mortgage_per_year_usd]
  simp only [hden, if_false, Option.map_some']
  rfl

/-- C1 (witness): at the worked example (loan 800,000, rate 7%, 30 years)
the hypotheses hold, the annual-annuity formula applies, and the payment is
between 5,372 and 5,373 dollars per month. -/
theorem mortgage_payment_annual_annuity_witness :
    (0 < exampleLoan.interest_rate_percentage) ∧ (0 < exampleLoan.mortgage_years) ∧
    exampleLoan.mortgage_per_month_usd =
      some (exampleLoan.loan_amount_usd * exampleLoan.interest_rate_percentage
          * (1 + exampleLoan.interest_rate_percentage) ^ exampleLoan.mortgage_years
          / ((1 + exampleLoan.interest_rate_percentage) ^ exampleLoan.mortgage_years - 1) / 12) ∧
    5372 < (exampleLoan.mortgage_per_month_usd).getD 0 ∧
    (exampleLoan.mortgage_per_month_usd).getD 0 < 5373 :=
  ⟨by decide!, by decide!,
    mortgage_payment_annual_annuity exampleLoan (by decide!) (by decide!),
    by decide!, by decide!⟩

/-- C1 (counterexample): at the worked example the engine's payment is not
the monthly-compounding level payment of the specification text; the
spec formula yields between 5,322 and 5,323 while the code yields more than
5,372 — neither is the claimed 5,319.84. -/
theorem mortgage_payment_not_monthly_annuity :
    exampleLoan.mortgage_per_month_usd
        ≠ some (spec_monthly_level_payment 800000 (7/100) 30) ∧
    5322 < spec_monthly_level_payment 800000 (7/100) 30 ∧
    spec_monthly_level_payment 800000 (7/100) 30 < 5323 ∧
    5372 < (exampleLoan.mortgage_per_month_usd).getD 0 :=
  ⟨by decide!, by decide!, by decide!, by decide!⟩

/-- C2: at annual rate 0 the engine's payment computation divides by zero
(the `none` models the `ZeroDivisionError`), and the schedule request fails
with it; the claimed value `loan_amount / n` is never produced. -/
theorem zero_rate_payment_divides_by_zero :
    zeroRateLoan.interest_rate_percentage = 0 ∧
    0 < zeroRateLoan.mortgage_years ∧
    0 ≤ zeroRateLoan.loan_amount_usd ∧
    zeroRateLoan.mortgage_per_year_usd = none ∧
    zeroRateLoan.mortgage_per_month_usd = none ∧
    zeroRateLoan.monthly_schedule 0 1 = none := by
  refine ⟨rfl, by decide!, by decide!, by decide!, by decide!, by decide!⟩

/-- C4: construction performs no validation.  A down-payment fraction of 2
(out of range) gives a negative loan amount, yet the object is built and
the engine produces statuses and a schedule from it with no
`InvalidInputError`; a non-positive term is accepted the same way. -/
theorem invalid_loan_constructed_without_error :
    invalidLoan.loan_amount_usd = -1000 ∧
    (invalidLoan.initial_loan_status 0).isSome = true ∧
    (invalidLoan.monthly_schedule 0 1).isSome = true ∧
    negativeYearsLoan.mortgage_years < 0 ∧
    (negativeYearsLoan.initial_loan_status 0).isSome = true := by
  refine ⟨by decide!, by decide!, by decide!, by decide!, by decide!⟩

/-- C3: at `negativeYearsLoan` the computed payment does not cover the first
month's interest — the initial principal is negative while the balance is
positive — and instead of failing with any `NonAmortizingLoanError` (no such
error exists in the code) the generator runs forever: no amount of fuel
completes it. -/
theorem non_amortizing_schedule_loops_forever :
    (∃ s, negativeYearsLoan.initial_loan_status 0 = some s ∧
        s.principal < 0 ∧ 0 < s.balance) ∧
    ∀ fuel, negativeYearsLoan.monthly_schedule 0 fuel = none := by
  have hm : negativeYearsLoan.mortgage_per_month_usd = some (-200000/3) := by decide!
  have hrate : negativeYearsLoan.interest_rate_percentage = 7/100 := by decide!
  have step : ∀ s : LoanStatus, 0 < s.balance → s.principal < 0 →
      ∃ s2, negativeYearsLoan.calculate_next_loan_status s = some s2 ∧
        0 < s2.balance ∧ s2.principal < 0 := by
    intro s hb hp
    refine ⟨_, calculate_next_loan_status_eq negativeYearsLoan hm s, ?_, ?_⟩
    · have h1 : 0 < s.balance - s.principal := by linarith
      simpa [max_eq_left h1.le] using h1
    · have h1 : 0 < s.balance - s.principal := by linarith
      have hbal : (0 : ℚ) < max (s.balance - s.principal) 0 := by
        rw [max_eq_left h1.le]; exact h1
      have h2 : 0 ≤ max (s.balance - s.principal) 0
          * negativeYearsLoan.interest_rate_percentage / 12 := by
        rw [hrate]; positivity
      simp only [if_pos hbal, mul_one, calculate_monthly_interest_def]
      have : (-200000/3 : ℚ) < 0 := by norm_num
      linarith
  have loop : ∀ fuel (s : LoanStatus), 0 < s.balance → s.principal < 0 →
      PropertyLoan.scheduleAux negativeYearsLoan fuel s = none := by
    intro fuel
    induction fuel with
    | zero => intro s hb _; simp [PropertyLoan.scheduleAux, hb]
    | succ n ih =>
      intro s hb hp
      obtain ⟨s2, hnext, hb2, hp2⟩ := step s hb hp
      simp [PropertyLoan.scheduleAux, hb, hnext, ih s2 hb2 hp2]
  have hinit : negativeYearsLoan.initial_loan_status 0 =
      some { date := 0, balance := 800000, interest := 14000/3,
             principal := -214000/3, taxes := 2500/3 } := by decide!
  constructor
  · exact ⟨_, hinit, by norm_num, by norm_num⟩
  · intro fuel
    rw [PropertyLoan.monthly_schedule, hinit, Option.some_bind]
    exact loop fuel _ (by norm_num) (by norm_num)

lemma payment_fields_parts {s1 s2 : LoanStatus}
    (h : PropertyLoan.payment_fields s1 = PropertyLoan.payment_fields s2) :
    s1.balance = s2.balance ∧ s1.interest = s2.interest ∧
    s1.principal = s2.principal ∧ s1.taxes = s2.taxes := by
  simpa [PropertyLoan.payment_fields, Prod.ext_iff] using h

/-- Two runs whose starting statuses differ at most in `date` stay in
lockstep in every non-date field. -/
lemma scheduleAux_payment_fields (p : PropertyLoan) :
    ∀ (fuel : ℕ) (s1 s2 : LoanStatus),
      PropertyLoan.payment_fields s1 = PropertyLoan.payment_fields s2 →
      (PropertyLoan.scheduleAux p fuel s1).map (List.map PropertyLoan.payment_fields)
        = (PropertyLoan.scheduleAux p fuel s2).map (List.map PropertyLoan.payment_fields) := by
  intro fuel
  induction fuel with
  | zero =>
    intro s1 s2 h
    obtain ⟨hb, -, -, -⟩ := payment_fields_parts h
    by_cases hb1 : 0 < s1.balance
    · have hb2 : 0 < s2.balance := hb ▸ hb1
      simp [PropertyLoan.scheduleAux, hb1, hb2]
    · have hb2 : ¬ 0 < s2.balance := hb ▸ hb1
      simp [PropertyLoan.scheduleAux, hb1, hb2, h]
  | succ n ih =>
    intro s1 s2 h
    obtain ⟨hb, hi, hpr, ht⟩ := payment_fields_parts h
    by_cases hb1 : 0 < s1.balance
    · have hb2 : 0 < s2.balance := hb ▸ hb1
      cases hmp : p.mortgage_per_month_usd with
      | none =>
        simp [PropertyLoan.scheduleAux, hb1, hb2,
          PropertyLoan.calculate_next_loan_status,
          PropertyLoan.calculate_monthly_principal, hmp]
      | some m =>
        rw [PropertyLoan.scheduleAux, PropertyLoan.scheduleAux,
          if_pos hb1, if_pos hb2,
          calculate_next_loan_status_eq p hmp s1,
          calculate_next_loan_status_eq p hmp s2]
        simp only [Option.some_bind]
        have hfields : PropertyLoan.payment_fields
              { date := s1.date + p.payment_interval_months
                balance := max (s1.balance - s1.principal) 0
                interest := p.calculate_monthly_interest (max (s1.balance - s1.principal) 0)
                principal := (m - p.calculate_monthly_interest (max (s1.balance - s1.principal) 0))
                  * (if 0 < max (s1.balance - s1.principal) 0 then 1 else 0)
                taxes := s1.taxes }
            = PropertyLoan.payment_fields
              { date := s2.date + p.payment_interval_months
                balance := max (s2.balance - s2.principal) 0
                interest := p.calculate_monthly_interest (max (s2.balance - s2.principal) 0)
                principal := (m - p.calculate_monthly_interest (max (s2.balance - s2.principal) 0))
                  * (if 0 < max (s2.balance - s2.principal) 0 then 1 else 0)
                taxes := s2.taxes } := by
          simp [PropertyLoan.payment_fields, hb, hpr, ht]
        have := ih _ _ hfields
        cases h1 : PropertyLoan.scheduleAux p n
            { date := s1.date + p.payment_interval_months
              balance := max (s1.balance - s1.principal) 0
              interest := p.calculate_monthly_interest (max (s1.balance - s1.principal) 0)
              principal := (m - p.calculate_monthly_interest (max (s1.balance - s1.principal) 0))
                * (if 0 < max (s1.balance - s1.principal) 0 then 1 else 0)
              taxes := s1.taxes } with
        | none =>
          rw [h1] at this
          cases h2 : PropertyLoan.scheduleAux p n
              { date := s2.date + p.payment_interval_months
                balance := max (s2.balance - s2.principal) 0
                interest := p.calculate_monthly_interest (max (s2.balance - s2.principal) 0)
                principal := (m - p.calculate_monthly_interest (max (s2.balance - s2.principal) 0))
                  * (if 0 < max (s2.balance - s2.principal) 0 then 1 else 0)
                taxes := s2.taxes } with
          | none => simp
          | some l2 => rw [h2] at this; simp at this
        | some l1 =>
          rw [h1] at this
          cases h2 : PropertyLoan.scheduleAux p n
              { date := s2.date + p.payment_interval_months
                balance := max (s2.balance - s2.principal) 0
                interest := p.calculate_monthly_interest (max (s2.balance - s2.principal) 0)
                principal := (m - p.calculate_monthly_interest (max (s2.balance - s2.principal) 0))
                  * (if 0 < max (s2.balance - s2.principal) 0 then 1 else 0)
                taxes := s2.taxes } with
          | none => rw [h2] at this; simp at this
          | some l2 =>
            rw [h2] at this
            simp only [Option.map_some'] at this ⊢
            simp only [Option.map_some', List.map_cons]
            rw [Option.some.injEq] at this
            simp [this, PropertyLoan.payment_fields, hb, hi, hpr, ht]
    · have hb2 : ¬ 0 < s2.balance := hb ▸ hb1
      simp [PropertyLoan.scheduleAux, hb1, hb2, h]

/-- C8 (amended): schedule generation is a pure function of the parameters
and the wall-clock start date.  Runs started on different days agree in
every non-date field of every row, and runs with identical parameters and
the same start date are identical in full. -/
theorem monthly_schedule_day_shift (p : PropertyLoan) (t1 t2 fuel : ℕ) :
    ((p.monthly_schedule t1 fuel).map (fun l => l.map PropertyLoan.payment_fields)
      = (p.monthly_schedule t2 fuel).map (fun l => l.map PropertyLoan.payment_fields)) ∧
    (t1 = t2 → p.monthly_schedule t1 fuel = p.monthly_schedule t2 fuel) := by
  constructor
  · rw [PropertyLoan.monthly_schedule, PropertyLoan.monthly_schedule]
    cases hmp : p.mortgage_per_month_usd with
    | none =>
      simp [PropertyLoan.initial_loan_status,
        PropertyLoan.calculate_monthly_principal, hmp]
    | some m =>
      rw [initial_loan_status_eq p hmp t1, initial_loan_status_eq p hmp t2]
      simp only [Option.some_bind]
      exact scheduleAux_payment_fields p fuel _ _ rfl
  · intro h; rw [h]

/-- C8 (witness): concrete invocations of the amended statement, at start
months 0 and 3 with one unit of fuel. -/
theorem monthly_schedule_day_shift_witness :
    ((zeroPriceLoan.monthly_schedule 0 1).map (fun l => l.map PropertyLoan.payment_fields)
      = (zeroPriceLoan.monthly_schedule 3 1).map (fun l => l.map PropertyLoan.payment_fields)) ∧
    ((0 : ℕ) = 0) ∧
    zeroPriceLoan.monthly_schedule 0 1 = zeroPriceLoan.monthly_schedule 0 1 :=
  ⟨(monthly_schedule_day_shift zeroPriceLoan 0 3 1).1, rfl,
    (monthly_schedule_day_shift zeroPriceLoan 0 0 1).2 rfl⟩

/-- C8 (counterexample): the engine reads the wall clock — two invocations
with identical parameters on different days produce different sequences
(their `date` fields differ), so the sequences are not identical in all
fields. -/
theorem monthly_schedule_uses_wall_clock :
    zeroPriceLoan.monthly_schedule 0 1 ≠ zeroPriceLoan.monthly_schedule 1 1 := by
  decide!

lemma good_initial (p : PropertyLoan) {m : ℚ}
    (hm : p.mortgage_per_month_usd = some m) {today : ℕ} {s0 : LoanStatus}
    (hinit : p.initial_loan_status today = some s0) (hpr : 0 < s0.principal) :
    GoodStatus p m s0 ∧ 0 < p.loan_amount_usd ∧
      s0.balance = p.loan_amount_usd ∧ s0.principal = principal_floor p m := by
  rw [initial_loan_status_eq p hm today] at hinit
  replace hinit := Option.some.inj hinit
  subst hinit
  by_cases hL : 0 < p.loan_amount_usd
  · refine ⟨⟨⟨rfl, ?_⟩, hL.le, le_refl _⟩, hL, rfl, ?_⟩
    · simp
    · simp only [if_pos hL, mul_one, calculate_monthly_interest_def, principal_floor]
  · rw [if_neg hL, mul_zero] at hpr
    exact absurd hpr (lt_irrefl 0)

lemma good_principal_lower (p : PropertyLoan) {m : ℚ}
    (hr : 0 ≤ p.interest_rate_percentage) {s : LoanStatus}
    (hs : GoodStatus p m s) (hpos : 0 < s.balance) :
    principal_floor p m ≤ s.principal := by
  obtain ⟨⟨hin, hprin⟩, h0, hL⟩ := hs
  rw [hprin, if_pos hpos, mul_one, hin, calculate_monthly_interest_def,
    principal_floor]
  have := mul_le_mul_of_nonneg_right hL hr
  linarith

lemma next_status_fields (p : PropertyLoan) {m : ℚ}
    (hm : p.mortgage_per_month_usd = some m) {s s2 : LoanStatus}
    (hnext : p.calculate_next_loan_status s = some s2) :
    s2.balance = max (s.balance - s.principal) 0 ∧
    s2.interest = p.calculate_monthly_interest s2.balance ∧
    s2.principal = (m - s2.interest) * (if 0 < s2.balance then 1 else 0) ∧
    s2.taxes = s.taxes ∧ s2.date = s.date + p.payment_interval_months := by
  rw [calculate_next_loan_status_eq p hm s] at hnext
  have h := Option.some.inj hnext
  exact ⟨by rw [← h], by rw [← h], by rw [← h], by rw [← h], by rw [← h]⟩

lemma good_step (p : PropertyLoan) {m : ℚ}
    (hm : p.mortgage_per_month_usd = some m)
    (hr : 0 ≤ p.interest_rate_percentage)
    (hδ : 0 < principal_floor p m) {s s2 : LoanStatus}
    (hs : GoodStatus p m s) (hpos : 0 < s.balance)
    (hnext : p.calculate_next_loan_status s = some s2) :
    GoodStatus p m s2 ∧ s2.balance ≤ s.balance ∧
      (s2.balance ≤ s.balance - principal_floor p m ∨ s2.balance = 0) := by
  obtain ⟨hbal, hint, hpr2, htax, -⟩ := next_status_fields p hm hnext
  have hplow : principal_floor p m ≤ s.principal := good_principal_lower p hr hs hpos
  have hppos : 0 < s.principal := lt_of_lt_of_le hδ hplow
  have h0 : 0 ≤ s2.balance := hbal ▸ le_max_right _ _
  have hle : s2.balance ≤ s.balance := by
    rw [hbal]; exact max_le (by linarith) hs.2.1
  refine ⟨⟨⟨hint, hpr2⟩, h0, hle.trans hs.2.2⟩, hle, ?_⟩
  rcases le_or_lt (s.balance - s.principal) 0 with hc | hc
  · right; rw [hbal]; exact max_eq_right hc
  · left; rw [hbal, max_eq_left hc.le]; linarith

lemma scheduleAux_terminates (p : PropertyLoan) {m : ℚ}
    (hm : p.mortgage_per_month_usd = some m)
    (hr : 0 ≤ p.interest_rate_percentage)
    (hδ : 0 < principal_floor p m) :
    ∀ (n : ℕ) (s : LoanStatus), GoodStatus p m s →
      s.balance ≤ n * principal_floor p m →
      ∃ l, PropertyLoan.scheduleAux p n s = some l := by
  intro n
  induction n with
  | zero =>
    intro s hs hb
    simp only [Nat.cast_zero, zero_mul] at hb
    exact ⟨[s], scheduleAux_halt p 0 s (by linarith)⟩
  | succ n ih =>
    intro s hs hb
    by_cases hpos : 0 < s.balance
    · obtain ⟨s2, hnext⟩ : ∃ s2, p.calculate_next_loan_status s = some s2 :=
        ⟨_, calculate_next_loan_status_eq p hm s⟩
      obtain ⟨hs2, -, hdisj⟩ := good_step p hm hr hδ hs hpos hnext
      have hb2 : s2.balance ≤ n * principal_floor p m := by
        rcases hdisj with hle | hz
        · push_cast at hb; linarith
        · rw [hz]; positivity
      obtain ⟨l, hl⟩ := ih s2 hs2 hb2
      refine ⟨s :: l, ?_⟩
      simp only [PropertyLoan.scheduleAux, if_pos hpos, hnext, Option.some_bind,
        hl, Option.map_some']
    · exact ⟨[s], scheduleAux_halt p _ s hpos⟩

lemma scheduleAux_invariants (p : PropertyLoan) {m : ℚ}
    (hm : p.mortgage_per_month_usd = some m)
    (hr : 0 ≤ p.interest_rate_percentage)
    (hδ : 0 < principal_floor p m) :
    ∀ (fuel : ℕ) (s : LoanStatus) (l : List LoanStatus), GoodStatus p m s →
      PropertyLoan.scheduleAux p fuel s = some l →
      l.head? = some s ∧
      (∀ t ∈ l, GoodStatus p m t) ∧
      (∀ t ∈ l, t.balance ≤ s.balance) ∧
      List.Pairwise (fun a b => b.balance ≤ a.balance) l ∧
      (∃ z, l.getLast? = some z ∧ z.balance = 0) ∧
      (∀ t ∈ l.dropLast, 0 < t.balance) := by
  intro fuel
  induction fuel with
  | zero =>
    intro s l hs hrun
    simp only [PropertyLoan.scheduleAux] at hrun
    by_cases hpos : 0 < s.balance
    · rw [if_pos hpos] at hrun; exact absurd hrun (by simp)
    · rw [if_neg hpos] at hrun
      replace hrun := Option.some.inj hrun
      subst hrun
      have hz : s.balance = 0 := le_antisymm (not_lt.1 hpos) hs.2.1
      exact ⟨rfl, by simpa using hs, by simp, by simp, ⟨s, rfl, hz⟩, by simp⟩
  | succ n ih =>
    intro s l hs hrun
    by_cases hpos : 0 < s.balance
    · obtain ⟨s2, hnext⟩ : ∃ s2, p.calculate_next_loan_status s = some s2 :=
        ⟨_, calculate_next_loan_status_eq p hm s⟩
      simp only [PropertyLoan.scheduleAux, if_pos hpos, hnext, Option.some_bind] at hrun
      obtain ⟨l2, hl2, rfl⟩ := Option.map_eq_some'.1 hrun
      obtain ⟨hs2, hle, -⟩ := good_step p hm hr hδ hs hpos hnext
      obtain ⟨hhead, hgood, hbound, hpair, ⟨z, hz, hz0⟩, hdrop⟩ := ih s2 l2 hs2 hl2
      have hne : l2 ≠ [] := by
        intro h; rw [h] at hhead; exact Option.noConfusion hhead
      refine ⟨rfl, ?_, ?_, ?_, ?_, ?_⟩
      · intro t ht
        rcases List.mem_cons.1 ht with rfl | ht2
        · exact hs
        · exact hgood t ht2
      · intro t ht
        rcases List.mem_cons.1 ht with rfl | ht2
        · exact le_refl _
        · exact (hbound t ht2).trans hle
      · exact List.pairwise_cons.2 ⟨fun t ht => (hbound t ht).trans hle, hpair⟩
      · cases l2 with
        | nil => exact absurd rfl hne
        | cons a as => exact ⟨z, hz, hz0⟩
      · cases l2 with
        | nil => exact absurd rfl hne
        | cons a as =>
          intro t ht
          rcases List.mem_cons.1 ht with rfl | ht2
          · exact hpos
          · exact hdrop t ht2
    · simp only [PropertyLoan.scheduleAux, if_neg hpos] at hrun
      replace hrun := Option.some.inj hrun
      subst hrun
      have hz : s.balance = 0 := le_antisymm (not_lt.1 hpos) hs.2.1
      exact ⟨rfl, by simpa using hs, by simp, by simp, ⟨s, rfl, hz⟩, by simp⟩

/-- C5: for a valid parameter set (non-negative rate and loan amount,
positive initial principal) the schedule is finite, its balances are
non-increasing and never negative, and it ends at the first status whose
balance is exactly 0, that terminal status included. -/
theorem schedule_finite_monotone_terminal (p : PropertyLoan)
    (hr : 0 ≤ p.interest_rate_percentage) (hL : 0 ≤ p.loan_amount_usd)
    (today : ℕ) (s0 : LoanStatus)
    (hinit : p.initial_loan_status today = some s0) (hpr : 0 < s0.principal) :
    ∃ fuel l, p.monthly_schedule today fuel = some l ∧
      List.Chain' (fun a b => b.balance ≤ a.balance) l ∧
      (∀ t ∈ l, 0 ≤ t.balance) ∧
      (∃ z, l.getLast? = some z ∧ z.balance = 0) ∧
      (∀ t ∈ l.dropLast, 0 < t.balance) := by
  obtain ⟨m, hm⟩ := mortgage_some_of_initial_some p hinit
  obtain ⟨hgood0, hLpos, hbal0, hfloor⟩ := good_initial p hm hinit hpr
  have hδ : 0 < principal_floor p m := hfloor ▸ hpr
  obtain ⟨n, hn⟩ := exists_nat_ge (p.loan_amount_usd / principal_floor p m)
  have hb : s0.balance ≤ n * principal_floor p m := by
    rw [hbal0]
    rw [div_le_iff₀ hδ] at hn
    linarith
  obtain ⟨l, hl⟩ := scheduleAux_terminates p hm hr hδ n s0 hgood0 hb
  obtain ⟨-, hgood, -, hpair, hlast, hdrop⟩ :=
    scheduleAux_invariants p hm hr hδ n s0 l hgood0 hl
  refine ⟨n, l, ?_, hpair.chain', fun t ht => (hgood t ht).2.1, hlast, hdrop⟩
  rw [PropertyLoan.monthly_schedule, hinit, Option.some_bind]
  exact hl

/-- C5 (witness): the hypotheses and conclusion at the concrete
`smallLoan`, whose initial principal is 25. -/
theorem schedule_finite_monotone_terminal_witness :
    (0 ≤ smallLoan.interest_rate_percentage) ∧ (0 ≤ smallLoan.loan_amount_usd) ∧
    smallLoan.initial_loan_status 0 =
      some { date := 0, balance := 300, interest := 7/4, principal := 25, taxes := 1 } ∧
    (0 : ℚ) < LoanStatus.principal
      { date := 0, balance := 300, interest := 7/4, principal := 25, taxes := 1 } ∧
    (∃ fuel l, smallLoan.monthly_schedule 0 fuel = some l ∧
      List.Chain' (fun a b => b.balance ≤ a.balance) l ∧
      (∀ t ∈ l, 0 ≤ t.balance) ∧
      (∃ z, l.getLast? = some z ∧ z.balance = 0) ∧
      (∀ t ∈ l.dropLast, 0 < t.balance)) :=
  ⟨by decide!, by decide!, by decide!, by decide!,
    schedule_finite_monotone_terminal smallLoan (by decide!) (by decide!) 0
      { date := 0, balance := 300, interest := 7/4, principal := 25, taxes := 1 }
      (by decide!) (by decide!)⟩

lemma scheduleAux_principal_sum (p : PropertyLoan) {m : ℚ}
    (hm : p.mortgage_per_month_usd = some m)
    (hr : 0 ≤ p.interest_rate_percentage)
    (hδ : 0 < principal_floor p m) :
    ∀ (fuel : ℕ) (s : LoanStatus) (l : List LoanStatus), GoodStatus p m s →
      PropertyLoan.scheduleAux p fuel s = some l →
      s.balance ≤ (l.map (fun t => t.principal)).sum ∧
      (l.map (fun t => t.principal)).sum ≤ s.balance + m := by
  intro fuel
  induction fuel with
  | zero =>
    intro s l hs hrun
    simp only [PropertyLoan.scheduleAux] at hrun
    by_cases hpos : 0 < s.balance
    · rw [if_pos hpos] at hrun; exact absurd hrun (by simp)
    · rw [if_neg hpos] at hrun
      replace hrun := Option.some.inj hrun
      subst hrun
      have hz : s.balance = 0 := le_antisymm (not_lt.1 hpos) hs.2.1
      have hp0 : s.principal = 0 := by
        rw [hs.1.2, if_neg hpos, mul_zero]
      have hLr : 0 ≤ p.loan_amount_usd * p.interest_rate_percentage :=
        mul_nonneg (le_trans hs.2.1 hs.2.2) hr
      have hmpos : 0 < m := by
        have := hδ
        rw [principal_floor] at this
        linarith
      simp only [List.map_cons, List.map_nil, List.sum_cons, List.sum_nil]
      constructor <;> linarith
  | succ n ih =>
    intro s l hs hrun
    by_cases hpos : 0 < s.balance
    · obtain ⟨s2, hnext⟩ : ∃ s2, p.calculate_next_loan_status s = some s2 :=
        ⟨_, calculate_next_loan_status_eq p hm s⟩
      simp only [PropertyLoan.scheduleAux, if_pos hpos, hnext, Option.some_bind] at hrun
      obtain ⟨l2, hl2, rfl⟩ := Option.map_eq_some'.1 hrun
      obtain ⟨hbal2, -, hpr2, -, -⟩ := next_status_fields p hm hnext
      obtain ⟨hs2, -, -⟩ := good_step p hm hr hδ hs hpos hnext
      have hipos : 0 ≤ s.balance * p.interest_rate_percentage / 12 := by positivity
      have hsprin : s.principal = m - s.balance * p.interest_rate_percentage / 12 := by
        rw [hs.1.2, if_pos hpos, mul_one, hs.1.1, calculate_monthly_interest_def]
      rcases le_or_lt 0 (s.balance - s.principal) with hc | hc
      · have hb2 : s2.balance = s.balance - s.principal := by
          rw [hbal2]; exact max_eq_left hc
        obtain ⟨hlow, hhigh⟩ := ih s2 l2 hs2 hl2
        simp only [List.map_cons, List.sum_cons]
        rw [hb2] at hlow hhigh
        constructor <;> linarith
      · have hb2 : s2.balance = 0 := by
          rw [hbal2]; exact max_eq_right hc.le
        have hhalt : PropertyLoan.scheduleAux p n s2 = some [s2] :=
          scheduleAux_halt p n s2 (by rw [hb2]; exact lt_irrefl 0)
        rw [hhalt] at hl2
        replace hl2 := Option.some.inj hl2
        subst hl2
        have hp20 : s2.principal = 0 := by
          rw [hpr2, hb2]
          simp
        simp only [List.map_cons, List.map_nil, List.sum_cons, List.sum_nil, hp20]
        constructor <;> linarith
    · simp only [PropertyLoan.scheduleAux, if_neg hpos] at hrun
      replace hrun := Option.some.inj hrun
      subst hrun
      have hz : s.balance = 0 := le_antisymm (not_lt.1 hpos) hs.2.1
      have hp0 : s.principal = 0 := by
        rw [hs.1.2, if_neg hpos, mul_zero]
      have hLr : 0 ≤ p.loan_amount_usd * p.interest_rate_percentage :=
        mul_nonneg (le_trans hs.2.1 hs.2.2) hr
      have hmpos : 0 < m := by
        have := hδ
        rw [principal_floor] at this
        linarith
      simp only [List.map_cons, List.map_nil, List.sum_cons, List.sum_nil]
      constructor <;> linarith

/-- C6 (amended): over a full schedule the principal column sums to the
loan amount *plus the final period's overshoot*: the engine never shrinks
the last payment, so the sum lies between `loan_amount` and
`loan_amount + monthly payment`, and is not equal to `loan_amount` in
general. -/
theorem principal_sum_retires_loan_with_overshoot (p : PropertyLoan)
    (hr : 0 ≤ p.interest_rate_percentage) (hL : 0 ≤ p.loan_amount_usd)
    (today : ℕ) (s0 : LoanStatus)
    (hinit : p.initial_loan_status today = some s0) (hpr : 0 < s0.principal) :
    ∀ fuel l, p.monthly_schedule today fuel = some l →
      ∃ m, p.mortgage_per_month_usd = some m ∧
        p.loan_amount_usd ≤ (l.map (fun t => t.principal)).sum ∧
        (l.map (fun t => t.principal)).sum ≤ p.loan_amount_usd + m := by
  intro fuel l hsch
  obtain ⟨m, hm⟩ := mortgage_some_of_initial_some p hinit
  obtain ⟨hgood0, hLpos, hbal0, hfloor⟩ := good_initial p hm hinit hpr
  have hδ : 0 < principal_floor p m := hfloor ▸ hpr
  rw [PropertyLoan.monthly_schedule, hinit, Option.some_bind] at hsch
  obtain ⟨hlow, hhigh⟩ := scheduleAux_principal_sum p hm hr hδ fuel s0 l hgood0 hsch
  rw [hbal0] at hlow hhigh
  exact ⟨m, hm, hlow, hhigh⟩

/-- C6 (witness): the bounds at the concrete `smallLoan` run. -/
theorem principal_sum_retires_loan_with_overshoot_witness :
    (0 ≤ smallLoan.interest_rate_percentage) ∧ (0 ≤ smallLoan.loan_amount_usd) ∧
    smallLoan.initial_loan_status 6 =
      some { date := 6, balance := 300, interest := 7/4, principal := 25, taxes := 1 } ∧
    (0 : ℚ) < LoanStatus.principal
      { date := 6, balance := 300, interest := 7/4, principal := 25, taxes := 1 } ∧
    smallLoan.monthly_schedule 6 20 = some smallSchedule ∧
    (∃ m, smallLoan.mortgage_per_month_usd = some m ∧
      smallLoan.loan_amount_usd ≤ (smallSchedule.map (fun t => t.principal)).sum ∧
      (smallSchedule.map (fun t => t.principal)).sum ≤ smallLoan.loan_amount_usd + m) :=
  ⟨by decide!, by decide!, by decide!, by decide!, by decide!,
    principal_sum_retires_loan_with_overshoot smallLoan (by decide!) (by decide!) 6
      { date := 6, balance := 300, interest := 7/4, principal := 25, taxes := 1 }
      (by decide!) (by decide!) 20 smallSchedule (by decide!)⟩

/-- C6 (counterexample): for `smallLoan` (loan amount 300) the principal
column of the full schedule sums past 309 — more than 9 dollars above the
loan amount, far outside floating-point tolerance, because the engine's
final payment overshoots the remaining balance. -/
theorem principal_sum_exceeds_loan :
    (smallLoan.monthly_schedule 6 20).isSome = true ∧
    smallLoan.loan_amount_usd = 300 ∧
    309 < (smallSchedule.map (fun t => t.principal)).sum := by
  refine ⟨by decide!, by decide!, by decide!⟩

/-- C10: for an amortizing run with positive rate the terminal status is
the unique one with balance 0, it carries zero interest and zero principal,
its balance is a lower bound of every balance in the run, and dropping it
changes no interest or principal sum. -/
theorem terminal_status_contributes_nothing (p : PropertyLoan)
    (hrpos : 0 < p.interest_rate_percentage) (hL : 0 ≤ p.loan_amount_usd)
    (today : ℕ) (s0 : LoanStatus)
    (hinit : p.initial_loan_status today = some s0) (hpr : 0 < s0.principal) :
    ∀ fuel l, p.monthly_schedule today fuel = some l →
      ∃ z, l.getLast? = some z ∧ z.balance = 0 ∧ z.interest = 0 ∧ z.principal = 0 ∧
        (∀ t ∈ l.dropLast, 0 < t.balance) ∧
        (∀ t ∈ l, z.balance ≤ t.balance) ∧
        (l.map (fun t => t.interest)).sum = (l.dropLast.map (fun t => t.interest)).sum ∧
        (l.map (fun t => t.principal)).sum = (l.dropLast.map (fun t => t.principal)).sum := by
  intro fuel l hsch
  obtain ⟨m, hm⟩ := mortgage_some_of_initial_some p hinit
  obtain ⟨hgood0, hLpos, hbal0, hfloor⟩ := good_initial p hm hinit hpr
  have hδ : 0 < principal_floor p m := hfloor ▸ hpr
  rw [PropertyLoan.monthly_schedule, hinit, Option.some_bind] at hsch
  obtain ⟨-, hgood, -, -, ⟨z, hz, hz0⟩, hdrop⟩ :=
    scheduleAux_invariants p hm hrpos.le hδ fuel s0 l hgood0 hsch
  have hzmem : z ∈ l := List.mem_of_mem_getLast? hz
  have hzgood := hgood z hzmem
  have hzi : z.interest = 0 := by
    rw [hzgood.1.1, calculate_monthly_interest_def, hz0, zero_mul, zero_div]
  have hzp : z.principal = 0 := by
    rw [hzgood.1.2, hz0]
    simp
  have hsplit : l.dropLast ++ [z] = l := List.dropLast_append_getLast? z hz
  refine ⟨z, hz, hz0, hzi, hzp, hdrop, ?_, ?_, ?_⟩
  · intro t ht
    rw [hz0]
    exact (hgood t ht).2.1
  · conv_lhs => rw [← hsplit]
    rw [List.map_append, List.sum_append]
    simp [hzi]
  · conv_lhs => rw [← hsplit]
    rw [List.map_append, List.sum_append]
    simp [hzp]

/-- C10 (witness): the conclusion at the concrete `smallLoan` run. -/
theorem terminal_status_contributes_nothing_witness :
    (0 < smallLoan.interest_rate_percentage) ∧ (0 ≤ smallLoan.loan_amount_usd) ∧
    smallLoan.initial_loan_status 6 =
      some { date := 6, balance := 300, interest := 7/4, principal := 25, taxes := 1 } ∧
    (0 : ℚ) < LoanStatus.principal
      { date := 6, balance := 300, interest := 7/4, principal := 25, taxes := 1 } ∧
    smallLoan.monthly_schedule 6 20 = some smallSchedule ∧
    (∃ z, smallSchedule.getLast? = some z ∧ z.balance = 0 ∧ z.interest = 0 ∧
      z.principal = 0 ∧
      (∀ t ∈ smallSchedule.dropLast, 0 < t.balance) ∧
      (∀ t ∈ smallSchedule, z.balance ≤ t.balance) ∧
      (smallSchedule.map (fun t => t.interest)).sum
        = (smallSchedule.dropLast.map (fun t => t.interest)).sum ∧
      (smallSchedule.map (fun t => t.principal)).sum
        = (smallSchedule.dropLast.map (fun t => t.principal)).sum) :=
  ⟨by decide!, by decide!, by decide!, by decide!, by decide!,
    terminal_status_contributes_nothing smallLoan (by decide!) (by decide!) 6
      { date := 6, balance := 300, interest := 7/4, principal := 25, taxes := 1 }
      (by decide!) (by decide!) 20 smallSchedule (by decide!)⟩

lemma sum_map_filter_not {α : Type} (l : List α) (q : α → Bool) (f : α → ℚ) :
    ((l.filter q).map f).sum + ((l.filter (fun a => !q a)).map f).sum
      = (l.map f).sum := by
  induction l with
  | nil => simp
  | cons a t ih =>
    by_cases h : q a
    · simp only [List.filter_cons, h, if_pos, Bool.not_true, if_neg,
        Bool.false_eq_true, not_false_eq_true, List.map_cons, List.sum_cons]
      linarith
    · simp only [List.filter_cons, h, Bool.false_eq_true, not_false_eq_true,
        if_neg, Bool.not_false, if_pos, List.map_cons, List.sum_cons]
      linarith

/-- Summing a per-group reduction over a covering list of distinct keys
gives the sum over the whole list. -/
lemma sum_over_year_groups (f : LoanStatus → ℚ) :
    ∀ (ys : List ℕ) (l : List LoanStatus), ys.Nodup →
      (∀ s ∈ l, PropertyLoan.yearOf s ∈ ys) →
      (ys.map (fun y =>
        ((l.filter (fun s => PropertyLoan.yearOf s == y)).map f).sum)).sum
        = (l.map f).sum := by
  intro ys
  induction ys with
  | nil =>
    intro l _ hcov
    have hnil : l = [] :=
      List.eq_nil_iff_forall_not_mem.mpr (fun s hs => by simpa using hcov s hs)
    subst hnil
    simp
  | cons y ys ih =>
    intro l hnd hcov
    have hyn : y ∉ ys := (List.nodup_cons.1 hnd).1
    have hnd2 : ys.Nodup := (List.nodup_cons.1 hnd).2
    have hcov2 : ∀ s ∈ l.filter (fun s => !(PropertyLoan.yearOf s == y)),
        PropertyLoan.yearOf s ∈ ys := by
      intro s hs
      obtain ⟨hsl, hsy⟩ := List.mem_filter.1 hs
      have hne : PropertyLoan.yearOf s ≠ y := by simpa using hsy
      rcases List.mem_cons.1 (hcov s hsl) with h | h
      · exact absurd h hne
      · exact h
    have htail : ∀ y2 ∈ ys,
        (l.filter (fun s => !(PropertyLoan.yearOf s == y))).filter
            (fun s => PropertyLoan.yearOf s == y2)
          = l.filter (fun s => PropertyLoan.yearOf s == y2) := by
      intro y2 hy2
      rw [List.filter_filter]
      apply List.filter_congr
      intro s _
      have hy2ne : y2 ≠ y := fun hc => hyn (hc ▸ hy2)
      by_cases h : PropertyLoan.yearOf s = y2
      · simp [h, hy2ne]
      · simp [h]
    have hmapeq : ys.map (fun y2 =>
          (((l.filter (fun s => !(PropertyLoan.yearOf s == y))).filter
            (fun s => PropertyLoan.yearOf s == y2)).map f).sum)
        = ys.map (fun y2 =>
          ((l.filter (fun s => PropertyLoan.yearOf s == y2)).map f).sum) := by
      apply List.map_congr_left
      intro y2 hy2
      rw [htail y2 hy2]
    have hIH := ih (l.filter (fun s => !(PropertyLoan.yearOf s == y))) hnd2 hcov2
    rw [hmapeq] at hIH
    have hsplit := sum_map_filter_not l (fun s => PropertyLoan.yearOf s == y) f
    simp only [List.map_cons, List.sum_cons]
    linarith

lemma yearly_keys_mem (l : List LoanStatus) (y : ℕ) :
    y ∈ PropertyLoan.yearly_keys l ↔ y ∈ l.map PropertyLoan.yearOf := by
  rw [PropertyLoan.yearly_keys, Finset.mem_sort, List.mem_toFinset]

lemma yearly_keys_nodup (l : List LoanStatus) :
    (PropertyLoan.yearly_keys l).Nodup :=
  Finset.sort_nodup _ _

lemma yearly_keys_sorted (l : List LoanStatus) :
    List.Sorted (· < ·) (PropertyLoan.yearly_keys l) :=
  Finset.sort_sorted_lt _

lemma dataframe_yearly_years (l : List LoanStatus) :
    (PropertyLoan.dataframe_yearly l).map (fun r => r.year)
      = PropertyLoan.yearly_keys l := by
  rw [PropertyLoan.dataframe_yearly, List.map_map]
  have hid : ((fun r => r.year) ∘ PropertyLoan.agg_row l) = fun y => y := by
    funext y
    rfl
  rw [hid]
  exact List.map_id' _

lemma foldl_max_of_le :
    ∀ (xs : List LoanStatus) (b : ℚ), (∀ t ∈ xs, t.balance ≤ b) →
      xs.foldl (fun acc t => max acc t.balance) b = b := by
  intro xs
  induction xs with
  | nil => intro b _; rfl
  | cons x xs ih =>
    intro b h
    simp only [List.foldl_cons]
    rw [max_eq_left (h x (by simp))]
    exact ih b (fun t ht => h t (by simp [ht]))

/-- C7: the yearly table of a valid schedule has exactly one row per
distinct calendar year, in strictly ascending year order; its interest,
principal and taxes columns sum to the same totals as the monthly rows;
and each row's `balance` (the group maximum) is the balance of the first
monthly period of that year. -/
theorem yearly_table_aggregation (p : PropertyLoan)
    (hr : 0 ≤ p.interest_rate_percentage) (hL : 0 ≤ p.loan_amount_usd)
    (today : ℕ) (s0 : LoanStatus)
    (hinit : p.initial_loan_status today = some s0) (hpr : 0 < s0.principal) :
    ∀ fuel l, p.monthly_schedule today fuel = some l →
      (List.Chain' (· < ·)
          ((PropertyLoan.dataframe_yearly l).map (fun r => r.year)) ∧
        (∀ r ∈ PropertyLoan.dataframe_yearly l,
          r.year ∈ l.map PropertyLoan.yearOf) ∧
        (∀ s ∈ l, PropertyLoan.yearOf s
          ∈ (PropertyLoan.dataframe_yearly l).map (fun r => r.year))) ∧
      (((PropertyLoan.dataframe_yearly l).map (fun r => r.interest)).sum
          = (l.map (fun s => s.interest)).sum ∧
        ((PropertyLoan.dataframe_yearly l).map (fun r => r.principal)).sum
          = (l.map (fun s => s.principal)).sum ∧
        ((PropertyLoan.dataframe_yearly l).map (fun r => r.taxes)).sum
          = (l.map (fun s => s.taxes)).sum) ∧
      (∀ r ∈ PropertyLoan.dataframe_yearly l, ∃ s,
        (l.filter (fun t => PropertyLoan.yearOf t == r.year)).head? = some s ∧
        r.balance = s.balance) := by
  intro fuel l hsch
  obtain ⟨m, hm⟩ := mortgage_some_of_initial_some p hinit
  obtain ⟨hgood0, hLpos, hbal0, hfloor⟩ := good_initial p hm hinit hpr
  have hδ : 0 < principal_floor p m := hfloor ▸ hpr
  rw [PropertyLoan.monthly_schedule, hinit, Option.some_bind] at hsch
  obtain ⟨-, -, -, hpair, -, -⟩ :=
    scheduleAux_invariants p hm hr hδ fuel s0 l hgood0 hsch
  have hcov : ∀ s ∈ l, PropertyLoan.yearOf s ∈ PropertyLoan.yearly_keys l :=
    fun s hs => (yearly_keys_mem l _).2 (List.mem_map_of_mem _ hs)
  refine ⟨⟨?_, ?_, ?_⟩, ⟨?_, ?_, ?_⟩, ?_⟩
  · rw [dataframe_yearly_years]
    exact (yearly_keys_sorted l).chain'
  · intro r hrow
    obtain ⟨y, hy, rfl⟩ := List.mem_map.1 hrow
    exact (yearly_keys_mem l _).1 hy
  · intro s hs
    rw [dataframe_yearly_years]
    exact hcov s hs
  · rw [PropertyLoan.dataframe_yearly, List.map_map]
    exact sum_over_year_groups (fun s => s.interest) (PropertyLoan.yearly_keys l)
      l (yearly_keys_nodup l) hcov
  · rw [PropertyLoan.dataframe_yearly, List.map_map]
    exact sum_over_year_groups (fun s => s.principal) (PropertyLoan.yearly_keys l)
      l (yearly_keys_nodup l) hcov
  · rw [PropertyLoan.dataframe_yearly, List.map_map]
    exact sum_over_year_groups (fun s => s.taxes) (PropertyLoan.yearly_keys l)
      l (yearly_keys_nodup l) hcov
  · intro r hrow
    obtain ⟨y, hy, rfl⟩ := List.mem_map.1 hrow
    have hyear : (PropertyLoan.agg_row l y).year = y := rfl
    rw [hyear]
    have hymem : y ∈ l.map PropertyLoan.yearOf := (yearly_keys_mem l y).1 hy
    obtain ⟨s, hsmem, hsy⟩ := List.mem_map.1 hymem
    have hsg : s ∈ l.filter (fun t => PropertyLoan.yearOf t == y) :=
      List.mem_filter.2 ⟨hsmem, by simp [hsy]⟩
    have hfpair : List.Pairwise (fun a b => b.balance ≤ a.balance)
        (l.filter (fun t => PropertyLoan.yearOf t == y)) :=
      List.Pairwise.sublist (List.filter_sublist l) hpair
    cases hg : l.filter (fun t => PropertyLoan.yearOf t == y) with
    | nil => rw [hg] at hsg; simp at hsg
    | cons a as =>
      rw [hg] at hfpair
      have hbound : ∀ t ∈ as, t.balance ≤ a.balance :=
        (List.pairwise_cons.1 hfpair).1
      refine ⟨a, rfl, ?_⟩
      show PropertyLoan.groupMaxBalance
        (l.filter (fun t => PropertyLoan.yearOf t == y)) = a.balance
      rw [hg]
      simp only [PropertyLoan.groupMaxBalance]
      exact foldl_max_of_le as a.balance hbound

/-- C9: every row of the tax-adjusted yearly table carries the fixed
standard deduction 13,850 and a `maximum_deduction` dominating both the
standard deduction and the total itemized deductions. -/
theorem maximum_deduction_dominates (q : IncomeAdjustedPropertyLoan)
    (l : List LoanStatus) (r : IncomeAdjustedPropertyLoan.AdjustedYearlyRow)
    (hrow : r ∈ q.dataframe_yearly l) :
    r.standard_deduction = 13850 ∧
    r.standard_deduction ≤ r.maximum_deduction ∧
    r.total_itemized_deductions ≤ r.maximum_deduction := by
  obtain ⟨row, -, rfl⟩ := List.mem_map.1 hrow
  exact ⟨rfl, le_max_right _ _, le_max_left _ _⟩

/-- C9 (witness): the first row of the concrete tax-adjusted table of
`smallLoan`. -/
theorem maximum_deduction_dominates_witness :
    smallAdjustedRow ∈ smallIncomeLoan.dataframe_yearly smallSchedule ∧
    (smallAdjustedRow.standard_deduction = 13850 ∧
      smallAdjustedRow.standard_deduction ≤ smallAdjustedRow.maximum_deduction ∧
      smallAdjustedRow.total_itemized_deductions
        ≤ smallAdjustedRow.maximum_deduction) :=
  ⟨by decide!, maximum_deduction_dominates smallIncomeLoan smallSchedule
    smallAdjustedRow (by decide!)⟩

/-- C7 (witness): the aggregation facts at the concrete `smallLoan` run,
which crosses a calendar-year boundary. -/
theorem yearly_table_aggregation_witness :
    (0 ≤ smallLoan.interest_rate_percentage) ∧ (0 ≤ smallLoan.loan_amount_usd) ∧
    smallLoan.initial_loan_status 6 =
      some { date := 6, balance := 300, interest := 7/4, principal := 25, taxes := 1 } ∧
    (0 : ℚ) < LoanStatus.principal
      { date := 6, balance := 300, interest := 7/4, principal := 25, taxes := 1 } ∧
    smallLoan.monthly_schedule 6 20 = some smallSchedule ∧
    ((List.Chain' (· < ·)
        ((PropertyLoan.dataframe_yearly smallSchedule).map (fun r => r.year)) ∧
      (∀ r ∈ PropertyLoan.dataframe_yearly smallSchedule,
        r.year ∈ smallSchedule.map PropertyLoan.yearOf) ∧
      (∀ s ∈ smallSchedule, PropertyLoan.yearOf s
        ∈ (PropertyLoan.dataframe_yearly smallSchedule).map (fun r => r.year))) ∧
    (((PropertyLoan.dataframe_yearly smallSchedule).map (fun r => r.interest)).sum
        = (smallSchedule.map (fun s => s.interest)).sum ∧
      ((PropertyLoan.dataframe_yearly smallSchedule).map (fun r => r.principal)).sum
        = (smallSchedule.map (fun s => s.principal)).sum ∧
      ((PropertyLoan.dataframe_yearly smallSchedule).map (fun r => r.taxes)).sum
        = (smallSchedule.map (fun s => s.taxes)).sum) ∧
    (∀ r ∈ PropertyLoan.dataframe_yearly smallSchedule, ∃ s,
      (smallSchedule.filter
        (fun t => PropertyLoan.yearOf t == r.year)).head? = some s ∧
      r.balance = s.balance)) :=
  ⟨by decide!, by decide!, by decide!, by decide!, by decide!,
    yearly_table_aggregation smallLoan (by decide!) (by decide!) 6
      { date := 6, balance := 300, interest := 7/4, principal := 25, taxes := 1 }
      (by decide!) (by decide!) 20 smallSchedule (by decide!)⟩
